import Mathlib

/-!
# Verification of the IELTS Writing Evaluator core (src/app.py)

A shallow embedding of the rating pipeline of `src/app.py`:
`count_words`, the prompt construction, the model dispatch of
`evaluate_with_llm` (lines 119-142), the JSON extraction
(`re.search` over `({[\s\S]*})`, line 147), the field mapping into
`DetailedRating` (lines 155-162), and the `/rate` endpoint
`rate_writing` (lines 169-182).

Python machine-level conventions used throughout:
* Python strings are Lean `String`s (sequences of code points); `len`
  is `String.length`, slicing `s[:200]` is `String.take`.
* Python `float` scores are modelled as exact rationals `ℚ`; the code
  performs no arithmetic on scores, only coercion, so no rounding
  behaviour is observable.
* exceptions are modelled by `Except String`, the payload being
  `str(e)` of the raised exception (library-generated messages whose
  exact text is position- or version-dependent are modelled by fixed
  descriptor strings, noted at their definitions).
-/

namespace IELTS

/-- The left brace character (written via its code to keep it out of
string/char literals). -/
def obrace : Char := '\x7b'

/-- The right brace character. -/
def cbrace : Char := '\x7d'

/-- `src/app.py` lines 24-26: the task-type enumeration. -/
inductive TaskType where
  | task1
  | task2
deriving DecidableEq

/-- The value of a `TaskType` member (`"task1"` / `"task2"`), as
interpolated into the prompt f-string. -/
def TaskType.val : TaskType → String
  | .task1 => "task1"
  | .task2 => "task2"

/-- `src/app.py` lines 29-33: the request body. -/
structure WritingSubmission where
  task_type : TaskType
  question : String
  response : String
  model : String
deriving DecidableEq

/-- `src/app.py` lines 36-38: one rubric dimension. -/
structure Criterion where
  score : ℚ
  feedback : String
deriving DecidableEq

/-- `src/app.py` lines 40-46: the full rating.  As with the pydantic
model, a value of this type necessarily carries all four criteria and
the overall score/feedback: partially-filled ratings are
unrepresentable. -/
structure DetailedRating where
  task_achievement : Criterion
  coherence_cohesion : Criterion
  lexical_resource : Criterion
  grammatical_range : Criterion
  overall_score : ℚ
  overall_feedback : String
deriving DecidableEq

/-- The `debug_info` dict built by `evaluate_with_llm`.  The source
only ever writes the keys `"response_preview"` (line 144) and
`"error_message"` (line 166), so the dict is modelled by two optional
fields. -/
structure DebugInfo where
  response_preview : Option String
  error_message : Option String
deriving DecidableEq

/-- `src/app.py` lines 49-51: the endpoint's success payload. -/
structure RatingResponse where
  rating : DetailedRating
  debug_info : Option DebugInfo
deriving DecidableEq

/-- A FastAPI `HTTPException` as raised on lines 175 and 182. -/
structure HTTPError where
  status_code : ℕ
  detail : String
deriving DecidableEq

/-- `str()` of a starlette `HTTPException`: `"{status_code}: {detail}"`. -/
def HTTPError.pyStr (e : HTTPError) : String :=
  toString e.status_code ++ ": " ++ e.detail

/-- An attempted outbound call to a model backend.  `evaluate_with_llm`
can reach two call sites: `client.chat.completions.create` (lines
127-133) and `ollama.chat` (line 138). -/
inductive NetworkCall where
  | openaiChat (system_msg : String) (user_msg : String)
  | ollamaChat (model_id : String) (user_msg : String)
deriving DecidableEq

/-- The ambient environment of one request: the `OPENAI_API_KEY`
environment variable (line 21) and an oracle giving, for a prompt, the
outcome of the OpenAI chat-completion call — either the first
completion's text or `str(e)` of the exception the call raised. -/
structure Env where
  OPENAI_API_KEY : Option String
  openaiOutcome : String → Except String String

/-- Python truthiness of `not OPENAI_API_KEY` (line 122): true when the
variable is unset or the empty string. -/
def keyFalsy : Option String → Bool
  | none => true
  | some s => s = ""

/-- Python `str.lower()` as applied on line 66.  ASCII case folding
over the string's characters; the claims only involve ASCII
identifiers. -/
def pyLower (s : String) : String :=
  String.mk (s.data.map Char.toLower)

/-- Whitespace recognised by Python `str.split()` (no argument):
space, tab, newline, carriage return, vertical tab, form feed. -/
def pyIsSpace (c : Char) : Bool :=
  c = ' ' || c = '\t' || c = '\n' || c = '\r' || c = '\x0b' || c = '\x0c'

/-- `src/app.py` lines 60-62: `count_words` returns
`len(text.split())` — the number of nonempty maximal runs between
whitespace characters. -/
def count_words (text : String) : ℕ :=
  ((text.data.splitOnP pyIsSpace).filter (fun w => !w.isEmpty)).length

/-- The prompt f-string of `evaluate_with_llm` (lines 70-116),
transcribed with its interpolations (`task_type`, `question`,
`word_count`, `response`).  Literal braces of the JSON example are
written via their codes.  (The f-string renders the `str`-mixin enum
member by its value, as on the Python versions the repo targets.) -/
def build_prompt (submission : WritingSubmission) (word_count : ℕ) : String :=
  "\n    You are a certified IELTS examiner, assessing the following "
    ++ submission.task_type.val
    ++ " response according to official IELTS scoring criteria.\n\n"
    ++ "    ### **IELTS Assessment Criteria:**\n"
    ++ "    - **Task Achievement** (For Task 1) / **Task Response** (For Task 2): Relevance, clarity, and completeness of the answer.\n"
    ++ "    - **Coherence & Cohesion**: Logical organization, paragraphing, and use of linking words.\n"
    ++ "    - **Lexical Resource**: Range, accuracy, and appropriateness of vocabulary.\n"
    ++ "    - **Grammatical Range & Accuracy**: Variety and correctness of sentence structures.\n"
    ++ "    - **Overall Band Score**: The final IELTS writing band score (0-9, increments of 0.5).\n\n"
    ++ "    ---\n    ### **Task Question:**\n    "
    ++ submission.question
    ++ "\n\n    ### **Student Response ("
    ++ toString word_count
    ++ " words):**\n    "
    ++ submission.response
    ++ "\n\n    ---\n    ### **Instructions:**\n"
    ++ "    - **Rate the response fairly** based on **IELTS standards**, avoiding extreme scores unless justified.\n"
    ++ "    - Provide a **detailed but concise** explanation for each category.\n"
    ++ "    - Ensure **balanced feedback** with both strengths and weaknesses.\n"
    ++ "    - Assign **scores in 0.5 increments** to match IELTS standards.\n\n"
    ++ "    ---\n    ### **Return JSON Format** (Use realistic scores and feedback):\n"
    ++ "    \x7b\n    \"task_achievement\": \x7b \n        \"score\": [realistic_score], \n        \"feedback\": \"[Explain how well the response answers the question. Mention strengths and areas for improvement.]\" \n    \x7d,\n"
    ++ "    \"coherence_cohesion\": \x7b \n        \"score\": [realistic_score], \n        \"feedback\": \"[Assess logical flow, paragraphing, and use of linking words. Highlight improvements.]\" \n    \x7d,\n"
    ++ "    \"lexical_resource\": \x7b \n        \"score\": [realistic_score], \n        \"feedback\": \"[Evaluate vocabulary range and accuracy. Mention strong word choices and any misused words.]\" \n    \x7d,\n"
    ++ "    \"grammatical_range\": \x7b \n        \"score\": [realistic_score], \n        \"feedback\": \"[Review sentence structures, grammatical errors, and complexity. Suggest improvements.]\" \n    \x7d,\n"
    ++ "    \"overall_score\": [realistic_overall_score],\n"
    ++ "    \"overall_feedback\": \"[Summarize the response quality, key strengths, and areas for improvement.]\"\n    \x7d\n    "

/-- `str(e)` of the `ValueError` raised on line 142 for an unknown
model identifier. -/
def invalid_model_msg : String :=
  "Invalid model selection. Choose \x27chatGPT\x27 or \x27llama3.2\x27."

/-- `str(e)` of the `ValueError` raised on line 123 when the API key is
missing. -/
def missing_key_msg : String :=
  "OPENAI_API_KEY environment variable is not set."

/-- `str(e)` of the `NameError` raised on line 138: the module-level
`import ollama` is commented out (`src/app.py` line 11), so evaluating
`ollama.chat(...)` raises `NameError: name 'ollama' is not defined`
before any request is sent. -/
def ollama_name_error_msg : String :=
  "name \x27ollama\x27 is not defined"

/-- The model dispatch of `evaluate_with_llm` (`src/app.py` lines
120-142): given the lowercased model name and the prompt, produce
either the raw reply text or `str(e)` of the exception raised, paired
with the list of upstream calls attempted.

* `"chatgpt"`: a falsy `OPENAI_API_KEY` raises `ValueError` before any
  call; otherwise the chat-completion call is attempted (one
  `NetworkCall` event) and its outcome — first completion's text, or
  an exception — comes from the environment's oracle.
* `"llama3.2"`: the name `ollama` is unbound (import commented out on
  line 11), so a `NameError` is raised with no call attempted.
* anything else: `ValueError` (line 142), no call attempted. -/
def gateway (env : Env) (model_name : String) (prompt : String) :
    Except String String × List NetworkCall :=
  if model_name = "chatgpt" then
    if keyFalsy env.OPENAI_API_KEY then
      (.error missing_key_msg, [])
    else
      match env.openaiOutcome prompt with
      | .ok content => (.ok content, [.openaiChat "You are an IELTS examiner." prompt])
      | .error e => (.error e, [.openaiChat "You are an IELTS examiner." prompt])
  else if model_name = "llama3.2" then
    (.error ollama_name_error_msg, [])
  else
    (.error invalid_model_msg, [])

/-! ## JSON values and a model of `json.loads` (line 153) -/

/-- A parsed JSON document.  Numbers are exact rationals (see the file
header); objects keep their fields in textual order, duplicate keys
included — lookup takes the last occurrence, as a Python dict built by
`json.loads` does. -/
inductive Json where
  | null
  | bool (b : Bool)
  | num (q : ℚ)
  | str (s : String)
  | arr (elems : List Json)
  | obj (fields : List (String × Json))

/-- JSON whitespace. -/
def jsonWs (c : Char) : Bool :=
  c = ' ' || c = '\t' || c = '\n' || c = '\r'

/-- Drop leading JSON whitespace. -/
def skipWs (cs : List Char) : List Char :=
  cs.dropWhile jsonWs

/-- Value of a hexadecimal digit. -/
def hexVal (c : Char) : Option ℕ :=
  if '0' ≤ c ∧ c ≤ '9' then some (c.toNat - 48)
  else if 'a' ≤ c ∧ c ≤ 'f' then some (c.toNat - 87)
  else if 'A' ≤ c ∧ c ≤ 'F' then some (c.toNat - 55)
  else none

/-- A single-character JSON string escape. -/
def escChar (e : Char) : Option Char :=
  if e = '"' then some '"'
  else if e = '\\' then some '\\'
  else if e = '/' then some '/'
  else if e = 'b' then some '\x08'
  else if e = 'f' then some '\x0c'
  else if e = 'n' then some '\n'
  else if e = 'r' then some '\r'
  else if e = 't' then some '\t'
  else none

/-- Parse the remainder of a JSON string, after its opening quote:
returns the decoded characters and the input after the closing quote.
Raw control characters are rejected, as by `json.loads` in its default
strict mode.  (`\uXXXX` maps to the scalar value directly; surrogate
pairing is not modelled — no claim exercises it.) -/
def parseStringRest : List Char → Option (List Char × List Char)
  | [] => none
  | '\\' :: 'u' :: h1 :: h2 :: h3 :: h4 :: rest =>
      match hexVal h1, hexVal h2, hexVal h3, hexVal h4 with
      | some a, some b, some c, some d =>
          let n := ((a * 16 + b) * 16 + c) * 16 + d
          (parseStringRest rest).map (fun p => (Char.ofNat n :: p.1, p.2))
      | _, _, _, _ => none
  | '\\' :: e :: rest =>
      match escChar e with
      | some c => (parseStringRest rest).map (fun p => (c :: p.1, p.2))
      | none => none
  | '"' :: rest => some ([], rest)
  | c :: rest =>
      if c.toNat < 32 then none
      else (parseStringRest rest).map (fun p => (c :: p.1, p.2))

/-- Numeric value of a digit string. -/
def digitsToNat (ds : List Char) : ℕ :=
  ds.foldl (fun a c => a * 10 + (c.toNat - 48)) 0

/-- Parse a JSON exponent part, after the `e`/`E`: returns the sign,
the magnitude, and the remaining input. -/
def parseExp (cs : List Char) : Option (Bool × ℕ × List Char) :=
  let p := match cs with
    | '+' :: t => (false, t)
    | '-' :: t => (true, t)
    | _ => (false, cs)
  let eds := p.2.takeWhile Char.isDigit
  if eds.isEmpty then none
  else some (p.1, digitsToNat eds, p.2.dropWhile Char.isDigit)

/-- Parse a JSON number at the head of the input, following the strict
grammar of the `json` module: `-? (0 | [1-9][0-9]*) (. [0-9]+)?
([eE][+-]?[0-9]+)?`.  (`NaN`/`Infinity`, accepted by `json.loads` as a
non-standard extension, are not modelled — no claim exercises them.) -/
def parseNumber (cs : List Char) : Option (ℚ × List Char) :=
  let p := match cs with
    | '-' :: t => (true, t)
    | _ => (false, cs)
  let neg := p.1
  let ds := p.2.takeWhile Char.isDigit
  let cs2 := p.2.dropWhile Char.isDigit
  if ds.isEmpty then none
  else if 1 < ds.length ∧ ds.headD ' ' = '0' then none
  else
    let withFrac : Option (List Char × List Char) :=
      match cs2 with
      | '.' :: t =>
          let f := t.takeWhile Char.isDigit
          if f.isEmpty then none else some (f, t.dropWhile Char.isDigit)
      | _ => some ([], cs2)
    match withFrac with
    | none => none
    | some (fds, cs3) =>
        let cont : Option (Bool × ℕ × List Char) :=
          match cs3 with
          | 'e' :: t => parseExp t
          | 'E' :: t => parseExp t
          | _ => some (false, 0, cs3)
        match cont with
        | none => none
        | some (esign, emag, cs4) =>
            let mant : ℤ := (if neg then -1 else 1) * (digitsToNat (ds ++ fds) : ℤ)
            let num : ℤ := if esign then mant else mant * ((10 ^ emag : ℕ) : ℤ)
            let den : ℕ := if esign then 10 ^ (fds.length + emag) else 10 ^ fds.length
            some (mkRat num den, cs4)

mutual

/-- Parse one JSON value at the head of the input (whitespace
allowed), returning it with the remaining input.  `fuel` bounds the
recursion depth; every recursive call follows the consumption of at
least one input character, so `length + 2` fuel never runs out. -/
def parseVal (fuel : ℕ) (cs : List Char) : Option (Json × List Char) :=
  match fuel with
  | 0 => none
  | fuel + 1 =>
    match skipWs cs with
    | [] => none
    | c :: rest =>
      if c = obrace then parseObjFields fuel true [] rest
      else if c = '[' then parseArrElems fuel true [] rest
      else if c = '"' then
        match parseStringRest rest with
        | some (s, r) => some (.str (String.mk s), r)
        | none => none
      else if c = 't' then
        match rest with
        | 'r' :: 'u' :: 'e' :: r => some (.bool true, r)
        | _ => none
      else if c = 'f' then
        match rest with
        | 'a' :: 'l' :: 's' :: 'e' :: r => some (.bool false, r)
        | _ => none
      else if c = 'n' then
        match rest with
        | 'u' :: 'l' :: 'l' :: r => some (.null, r)
        | _ => none
      else
        match parseNumber (c :: rest) with
        | some (q, r) => some (.num q, r)
        | none => none

/-- Parse the members of a JSON object, after its opening brace (or
after a separating comma, with `first := false`; a trailing comma is
rejected, as by `json.loads`). -/
def parseObjFields (fuel : ℕ) (first : Bool) (acc : List (String × Json)) (cs : List Char) :
    Option (Json × List Char) :=
  match fuel with
  | 0 => none
  | fuel + 1 =>
    match skipWs cs with
    | [] => none
    | c :: rest =>
      if first ∧ c = cbrace then some (.obj acc.reverse, rest)
      else if c = '"' then
        match parseStringRest rest with
        | none => none
        | some (k, r1) =>
          match skipWs r1 with
          | ':' :: r2 =>
            match parseVal fuel r2 with
            | none => none
            | some (v, r3) =>
              match skipWs r3 with
              | [] => none
              | d :: r4 =>
                if d = ',' then parseObjFields fuel false ((String.mk k, v) :: acc) r4
                else if d = cbrace then some (.obj (((String.mk k, v)) :: acc).reverse, r4)
                else none
          | _ => none
      else none

/-- Parse the elements of a JSON array, after its opening bracket (or
after a separating comma, with `first := false`). -/
def parseArrElems (fuel : ℕ) (first : Bool) (acc : List Json) (cs : List Char) :
    Option (Json × List Char) :=
  match fuel with
  | 0 => none
  | fuel + 1 =>
    match skipWs cs with
    | [] => none
    | c :: rest =>
      if first ∧ c = ']' then some (.arr acc.reverse, rest)
      else
        match parseVal fuel (c :: rest) with
        | none => none
        | some (v, r1) =>
          match skipWs r1 with
          | ',' :: r2 => parseArrElems fuel false (v :: acc) r2
          | ']' :: r2 => some (.arr (v :: acc).reverse, r2)
          | _ => none

end

/-- Model of `json.loads` (line 153): parse one JSON document,
requiring the whole input to be consumed up to trailing whitespace
(leftover non-whitespace raises `JSONDecodeError: Extra data`). -/
def pyJsonLoads (s : String) : Option Json :=
  match parseVal (s.data.length + 2) s.data with
  | some (j, rest) => if (skipWs rest).isEmpty then some j else none
  | none => none

/-! ## Field mapping into `DetailedRating` (lines 155-162) -/

/-- Lookup in a parsed object's fields; the last occurrence of a
duplicated key wins, as in the Python dict `json.loads` builds. -/
def dictGet (fields : List (String × Json)) (k : String) : Option Json :=
  fields.foldl (fun acc p => if p.1 = k then some p.2 else acc) none

/-- `str(e)` of `KeyError(k)`: the `repr` of the key. -/
def key_error_msg (k : String) : String :=
  "\x27" ++ k ++ "\x27"

/-- Python subscription `j[k]` with a string key: a lookup on a dict
(`KeyError` when absent), a `TypeError` on any other value.  (The
`TypeError` text varies with the value's type in Python; it is
modelled by a fixed descriptor.) -/
def pyIndex (j : Json) (k : String) : Except String Json :=
  match j with
  | .obj fields =>
    match dictGet fields k with
    | some v => .ok v
    | none => .error (key_error_msg k)
  | _ => .error "TypeError: indexing a non-object value with a string key"

/-- Python `float(str)` for decimal literals, as accepted after
stripping surrounding whitespace.  (Exponent notation and
`inf`/`nan`, which Python also accepts, are not modelled — no claim
exercises them.) -/
def pyStrToFloat (s : String) : Option ℚ :=
  let cs := ((s.data.dropWhile pyIsSpace).reverse.dropWhile pyIsSpace).reverse
  let p := match cs with
    | '-' :: t => (true, t)
    | '+' :: t => (false, t)
    | _ => (false, cs)
  let ds := p.2.takeWhile Char.isDigit
  let cs2 := p.2.dropWhile Char.isDigit
  let q := match cs2 with
    | '.' :: t => (t.takeWhile Char.isDigit, t.dropWhile Char.isDigit)
    | _ => ([], cs2)
  if q.2.isEmpty ∧ ¬(ds.isEmpty ∧ q.1.isEmpty) then
    let mant : ℤ := (if p.1 then -1 else 1) * (digitsToNat (ds ++ q.1) : ℤ)
    some (mkRat mant (10 ^ q.1.length))
  else none

/-- Python `float(x)` as applied to a parsed JSON value (lines
156-160): numbers pass through, booleans coerce (a Python `bool` is an
`int`), numeric strings convert, everything else raises. -/
def pyFloat (j : Json) : Except String ℚ :=
  match j with
  | .num q => .ok q
  | .bool b => .ok (if b then 1 else 0)
  | .str s =>
    match pyStrToFloat s with
    | some q => .ok q
    | none => .error ("could not convert string to float: \x27" ++ s ++ "\x27")
  | _ => .error "TypeError: float() argument must be a string or a real number"

/-- pydantic validation of a `str` field (`Criterion.feedback`,
`DetailedRating.overall_feedback`): only a JSON string is accepted.
(The `ValidationError` text is modelled by a fixed descriptor.) -/
def pydanticStr (j : Json) : Except String String :=
  match j with
  | .str s => .ok s
  | _ => .error "ValidationError: input should be a valid string"

/-- One `Criterion(score=float(rating_data[k]["score"]),
feedback=rating_data[k]["feedback"])` argument of lines 156-159, in
Python evaluation order. -/
def buildCriterion (rating_data : Json) (k : String) : Except String Criterion := do
  let sub ← pyIndex rating_data k
  let sraw ← pyIndex sub "score"
  let s ← pyFloat sraw
  let fraw ← pyIndex sub "feedback"
  let f ← pydanticStr fraw
  return { score := s, feedback := f }

/-- The `DetailedRating(...)` construction of lines 155-162, arguments
in Python evaluation order; the first failing lookup/coercion raises
and aborts the whole construction. -/
def buildRating (rating_data : Json) : Except String DetailedRating := do
  let ta ← buildCriterion rating_data "task_achievement"
  let cc ← buildCriterion rating_data "coherence_cohesion"
  let lr ← buildCriterion rating_data "lexical_resource"
  let gr ← buildCriterion rating_data "grammatical_range"
  let osraw ← pyIndex rating_data "overall_score"
  let os ← pyFloat osraw
  let ofraw ← pyIndex rating_data "overall_feedback"
  let ofb ← pydanticStr ofraw
  return { task_achievement := ta, coherence_cohesion := cc, lexical_resource := lr,
           grammatical_range := gr, overall_score := os, overall_feedback := ofb }

/-! ## JSON extraction (line 147): `re.search(r'({[\s\S]*})', text)`

The pattern anchors nowhere, so `re.search` tries start positions left
to right; at a start the pattern requires a left brace, then the
greedy `[\s\S]*` consumes to the end of the input and backtracks to
the last right brace.  Hence the match, when one exists, runs from the
first left brace that has some right brace after it — which is the
first left brace of the whole text whenever any such pair exists — to
the last right brace of the whole text. -/

/-- Index of the last right brace of the input, if any. -/
def lastClose : List Char → Option ℕ
  | [] => none
  | c :: rest =>
    match lastClose rest with
    | some j => some (j + 1)
    | none => if c = cbrace then some 0 else none

/-- The leftmost-then-greedy scan of `re.search(r'({[\s\S]*})', ·)`:
at each position, a left brace with some right brace after it yields
the match ending at the last right brace; otherwise the start position
advances. -/
def braceSearch : List Char → Option (List Char)
  | [] => none
  | c :: rest =>
    if c = obrace then
      match lastClose rest with
      | some j => some (c :: rest.take (j + 1))
      | none => braceSearch rest
    else braceSearch rest

/-- The extraction step of lines 147-151: the matched group, or `None`
when the pattern does not occur. -/
def extract_json (s : String) : Option String :=
  (braceSearch s.data).map String.mk

/-- `str(e)` of the `ValueError` raised on line 151. -/
def no_json_msg : String :=
  "Could not extract JSON from model response"

/-- Descriptor for a `json.JSONDecodeError` raised by line 153.  (The
Python message cites a line/column position; it is modelled by a fixed
descriptor.) -/
def json_decode_msg : String :=
  "JSONDecodeError: extracted substring is not a valid JSON document"

/-- Lines 153-162 applied to an extracted substring: parse it, then
map the parsed fields into a `DetailedRating`. -/
def loadAndBuild (json_str : String) : Except String DetailedRating :=
  match pyJsonLoads json_str with
  | none => .error json_decode_msg
  | some rating_data => buildRating rating_data

/-- Lines 147-162: the whole response-extraction pipeline, from raw
reply text to a `DetailedRating` or the `str(e)` of the exception
raised. -/
def extract_rating (response_content : String) : Except String DetailedRating :=
  match extract_json response_content with
  | none => .error no_json_msg
  | some json_str => loadAndBuild json_str

/-! ## The orchestrator (lines 64-167) and the endpoint (169-182) -/

/-- Line 144: the debug preview of the raw reply —
`response_content[:200] + "..." if len(response_content) > 200 else
response_content`. -/
def preview_of (response_content : String) : String :=
  if response_content.length > 200 then response_content.take 200 ++ "..." else response_content

/-- `evaluate_with_llm` (lines 64-167): build the prompt, dispatch to
the selected backend, record the reply preview, extract the rating.
Any exception is caught by the handler of lines 164-167, which stores
`str(e)` under `debug_info["error_message"]` and returns no rating.
The third component records the upstream calls attempted. -/
def evaluate_with_llm (env : Env) (submission : WritingSubmission) :
    Option DetailedRating × DebugInfo × List NetworkCall :=
  let model_name := pyLower submission.model
  let word_count := count_words submission.response
  let prompt := build_prompt submission word_count
  match gateway env model_name prompt with
  | (.error e, calls) => (none, ⟨none, some e⟩, calls)
  | (.ok response_content, calls) =>
    let preview := preview_of response_content
    match extract_rating response_content with
    | .ok rating => (some rating, ⟨some preview, none⟩, calls)
    | .error e => (none, ⟨some preview, some e⟩, calls)

/-- The `rate_writing` endpoint (lines 169-182).  A missing rating
raises `HTTPException(500, "LLM evaluation failed.")`; the surrounding
`except Exception` handler catches that very exception and re-raises
`HTTPException(500, str(e))`, so the surfaced detail is the `str()` of
the inner exception.  On success the response carries the rating, and
the debug info only when `debug_mode` is set. -/
def rate_writing (env : Env) (submission : WritingSubmission) (debug_mode : Bool) :
    Except HTTPError RatingResponse :=
  match evaluate_with_llm env submission with
  | (none, _, _) => .error ⟨500, HTTPError.pyStr ⟨500, "LLM evaluation failed."⟩⟩
  | (some rating, debug_info, _) =>
    .ok { rating := rating, debug_info := if debug_mode then some debug_info else none }


/-! ## Helper lemmas: the greedy brace scan -/

theorem lastClose_get (cs : List Char) (j : ℕ) (h : lastClose cs = some j) :
    cs.get? j = some cbrace := by
  induction cs generalizing j with
  | nil => simp [lastClose] at h
  | cons c rest ih =>
    rw [lastClose] at h
    cases hr : lastClose rest with
    | some j₀ =>
      rw [hr] at h
      cases h
      simpa using ih j₀ hr
    | none =>
      rw [hr] at h
      by_cases hc : c = cbrace
      · rw [if_pos hc] at h
        cases h
        simp [hc]
      · rw [if_neg hc] at h
        cases h

theorem lastClose_none (cs : List Char) (h : lastClose cs = none) :
    ∀ k, cs.get? k ≠ some cbrace := by
  induction cs with
  | nil => intro k; simp
  | cons c rest ih =>
    rw [lastClose] at h
    cases hr : lastClose rest with
    | some j₀ => rw [hr] at h; cases h
    | none =>
      rw [hr] at h
      by_cases hc : c = cbrace
      · rw [if_pos hc] at h; cases h
      · intro k
        cases k with
        | zero => simpa using fun hEq => hc hEq
        | succ k => simpa using ih hr k

theorem lastClose_last (cs : List Char) (j : ℕ) (h : lastClose cs = some j) :
    ∀ k, j < k → cs.get? k ≠ some cbrace := by
  induction cs generalizing j with
  | nil => simp [lastClose] at h
  | cons c rest ih =>
    rw [lastClose] at h
    cases hr : lastClose rest with
    | some j₀ =>
      rw [hr] at h
      cases h
      intro k hk
      cases k with
      | zero => omega
      | succ k => simpa using ih j₀ hr k (by omega)
    | none =>
      rw [hr] at h
      by_cases hc : c = cbrace
      · rw [if_pos hc] at h
        cases h
        intro k hk
        cases k with
        | zero => omega
        | succ k => simpa using lastClose_none rest hr k
      · rw [if_neg hc] at h
        cases h

theorem lastClose_exists (cs : List Char) (j : ℕ) (h : cs.get? j = some cbrace) :
    ∃ l, lastClose cs = some l := by
  induction cs generalizing j with
  | nil => simp at h
  | cons c rest ih =>
    rw [lastClose]
    cases hr : lastClose rest with
    | some j₀ => exact ⟨j₀ + 1, rfl⟩
    | none =>
      cases j with
      | zero =>
        simp only [List.get?_cons_zero, Option.some.injEq] at h
        exact ⟨0, by rw [if_pos h]⟩
      | succ j =>
        simp only [List.get?_cons_succ] at h
        obtain ⟨l, hl⟩ := ih j h
        rw [hl] at hr
        cases hr

theorem braceSearch_spec (cs : List Char) (i j : ℕ) (hij : i < j)
    (hi : cs.get? i = some obrace) (hj : cs.get? j = some cbrace) :
    ∃ f l, f < l ∧
      cs.get? f = some obrace ∧ (∀ k, k < f → cs.get? k ≠ some obrace) ∧
      cs.get? l = some cbrace ∧ (∀ k, l < k → cs.get? k ≠ some cbrace) ∧
      braceSearch cs = some ((cs.drop f).take (l + 1 - f)) := by
  induction cs generalizing i j with
  | nil => simp at hi
  | cons c rest ih =>
    by_cases hc : c = obrace
    · -- the match starts at position 0
      have hj' : rest.get? (j - 1) = some cbrace := by
        cases j with
        | zero => omega
        | succ j => simpa using hj
      obtain ⟨l', hl'⟩ := lastClose_exists rest (j - 1) hj'
      refine ⟨0, l' + 1, by omega, by simp [hc], ?_, ?_, ?_, ?_⟩
      · intro k hk; omega
      · simpa using lastClose_get rest l' hl'
      · intro k hk
        cases k with
        | zero => omega
        | succ k => simpa using lastClose_last rest l' hl' k (by omega)
      · rw [braceSearch, if_pos hc, hl']
        simp
    · -- position 0 fails; recurse
      have hi0 : i ≠ 0 := by
        intro h0
        rw [h0] at hi
        simp only [List.get?_cons_zero, Option.some.injEq] at hi
        exact hc hi
      obtain ⟨i', rfl⟩ : ∃ i', i = i' + 1 := ⟨i - 1, by omega⟩
      obtain ⟨j', rfl⟩ : ∃ j', j = j' + 1 := ⟨j - 1, by omega⟩
      simp only [List.get?_cons_succ] at hi hj
      obtain ⟨f', l', hfl, hf, hfmin, hl, hlmax, hbs⟩ := ih i' j' (by omega) hi hj
      refine ⟨f' + 1, l' + 1, by omega, by simpa using hf, ?_, by simpa using hl, ?_, ?_⟩
      · intro k hk
        cases k with
        | zero => simpa using fun hEq => hc hEq
        | succ k => simpa using hfmin k (by omega)
      · intro k hk
        cases k with
        | zero => omega
        | succ k => simpa using hlmax k (by omega)
      · rw [braceSearch, if_neg hc, hbs]
        simp only [List.drop_succ_cons]
        have harith : l' + 1 + 1 - (f' + 1) = l' + 1 - f' := by omega
        rw [harith]

theorem lastClose_of_not_mem (ys : List Char) (h : cbrace ∉ ys) : lastClose ys = none := by
  induction ys with
  | nil => rfl
  | cons c rest ih =>
    have hc : c ≠ cbrace := fun hEq => h (hEq ▸ List.mem_cons_self c rest)
    have hrest : cbrace ∉ rest := fun hm => h (List.mem_cons_of_mem c hm)
    rw [lastClose, ih hrest, if_neg hc]

theorem lastClose_append (xs ys : List Char) (h : cbrace ∉ ys) :
    lastClose (xs ++ ys) = lastClose xs := by
  induction xs with
  | nil => simpa using lastClose_of_not_mem ys h
  | cons x xs ih => rw [List.cons_append, lastClose, lastClose, ih]

theorem lastClose_snoc (xs : List Char) : lastClose (xs ++ [cbrace]) = some xs.length := by
  induction xs with
  | nil => rfl
  | cons x xs ih => rw [List.cons_append, lastClose, ih]; rfl

theorem braceSearch_append_left (pre cs : List Char) (h : obrace ∉ pre) :
    braceSearch (pre ++ cs) = braceSearch cs := by
  induction pre with
  | nil => rfl
  | cons p pre ih =>
    have hp : p ≠ obrace := fun hEq => h (hEq ▸ List.mem_cons_self p pre)
    have hpre : obrace ∉ pre := fun hm => h (List.mem_cons_of_mem p hm)
    rw [List.cons_append, braceSearch, if_neg hp, ih hpre]

theorem braceSearch_of_not_mem (cs : List Char) (h : obrace ∉ cs) : braceSearch cs = none := by
  induction cs with
  | nil => rfl
  | cons c rest ih =>
    have hc : c ≠ obrace := fun hEq => h (hEq ▸ List.mem_cons_self c rest)
    have hrest : obrace ∉ rest := fun hm => h (List.mem_cons_of_mem c hm)
    rw [braceSearch, if_neg hc, ih hrest]

theorem braceSearch_pre_obj_post (pre mid post : List Char)
    (hpre : obrace ∉ pre) (hpost : cbrace ∉ post) :
    braceSearch (pre ++ (obrace :: (mid ++ [cbrace])) ++ post)
      = some (obrace :: (mid ++ [cbrace])) := by
  rw [List.append_assoc, braceSearch_append_left pre _ hpre, List.cons_append,
    braceSearch, if_pos rfl, lastClose_append _ post hpost, lastClose_snoc]
  dsimp only
  have h1 : mid.length + 1 = (mid ++ [cbrace]).length := by simp
  rw [h1, List.take_left]

/-! ## Helper lemmas: the `Except` pipeline -/

theorem except_bind_ok {α β : Type} (x : Except String α) (f : α → Except String β) (b : β)
    (h : x >>= f = .ok b) : ∃ a, x = .ok a ∧ f a = .ok b := by
  cases x with
  | error e => exact Except.noConfusion (show (Except.error e : Except String β) = Except.ok b from h)
  | ok a => exact ⟨a, rfl, h⟩

/-- Whether one criterion's data is missing from the parsed reply:
either the criterion key itself is absent, or it maps to an object
that lacks the `score` or the `feedback` sub-key.  (A criterion key
mapped to a non-object raises `TypeError`, not a missing-key error.) -/
def criterionKeyMissing (j : Json) (k : String) : Bool :=
  match pyIndex j k with
  | .error _ => true
  | .ok (.obj fs) => (dictGet fs "score").isNone || (dictGet fs "feedback").isNone
  | .ok _ => false

/-- Whether a top-level required key is absent (or the parsed value is
not an object at all). -/
def topKeyMissing (j : Json) (k : String) : Bool :=
  match pyIndex j k with
  | .error _ => true
  | .ok _ => false

/-- Whether any required key or sub-key of the rubric shape is missing
from the parsed reply. -/
def requiredFieldMissing (j : Json) : Bool :=
  criterionKeyMissing j "task_achievement" || criterionKeyMissing j "coherence_cohesion" ||
  criterionKeyMissing j "lexical_resource" || criterionKeyMissing j "grammatical_range" ||
  topKeyMissing j "overall_score" || topKeyMissing j "overall_feedback"

/-- The parsed JSON document embedded in a raw reply, when extraction
and parsing both succeed. -/
def parsedJson (rc : String) : Option Json :=
  (extract_json rc).bind (fun js => pyJsonLoads js)

/-- `requiredFieldMissing` lifted over `parsedJson`'s optionality. -/
def optRequiredMissing : Option Json → Bool
  | none => false
  | some j => requiredFieldMissing j

theorem buildCriterion_ok (j : Json) (k : String) (c : Criterion)
    (h : buildCriterion j k = .ok c) : criterionKeyMissing j k = false := by
  unfold buildCriterion at h
  obtain ⟨sub, hsub, h⟩ := except_bind_ok _ _ _ h
  obtain ⟨sraw, hsraw, h⟩ := except_bind_ok _ _ _ h
  obtain ⟨s, _hs, h⟩ := except_bind_ok _ _ _ h
  obtain ⟨fraw, hfraw, _h⟩ := except_bind_ok _ _ _ h
  unfold criterionKeyMissing
  rw [hsub]
  cases sub with
  | obj fs =>
    simp only [pyIndex] at hsraw hfraw
    cases hd1 : dictGet fs "score" with
    | none => rw [hd1] at hsraw; exact Except.noConfusion hsraw
    | some v1 =>
      cases hd2 : dictGet fs "feedback" with
      | none => rw [hd2] at hfraw; exact Except.noConfusion hfraw
      | some v2 => simp [hd1, hd2]
  | null => exact Except.noConfusion hsraw
  | bool b => exact Except.noConfusion hsraw
  | num q => exact Except.noConfusion hsraw
  | str s2 => exact Except.noConfusion hsraw
  | arr xs => exact Except.noConfusion hsraw

theorem pyIndex_ok_top (j : Json) (k : String) (v : Json)
    (h : pyIndex j k = .ok v) : topKeyMissing j k = false := by
  unfold topKeyMissing
  rw [h]

theorem buildRating_ok_required (j : Json) (r : DetailedRating)
    (h : buildRating j = .ok r) : requiredFieldMissing j = false := by
  unfold buildRating at h
  obtain ⟨ta, hta, h⟩ := except_bind_ok _ _ _ h
  obtain ⟨cc, hcc, h⟩ := except_bind_ok _ _ _ h
  obtain ⟨lr, hlr, h⟩ := except_bind_ok _ _ _ h
  obtain ⟨gr, hgr, h⟩ := except_bind_ok _ _ _ h
  obtain ⟨osraw, hosraw, h⟩ := except_bind_ok _ _ _ h
  obtain ⟨os, _hos, h⟩ := except_bind_ok _ _ _ h
  obtain ⟨ofraw, hofraw, _⟩ := except_bind_ok _ _ _ h
  unfold requiredFieldMissing
  rw [buildCriterion_ok _ _ _ hta, buildCriterion_ok _ _ _ hcc,
      buildCriterion_ok _ _ _ hlr, buildCriterion_ok _ _ _ hgr,
      pyIndex_ok_top _ _ _ hosraw, pyIndex_ok_top _ _ _ hofraw]
  rfl

/-- If a required field is missing from the parsed object, the field
mapping fails. -/
theorem buildRating_error_of_missing (j : Json) (h : requiredFieldMissing j = true) :
    ∃ e, buildRating j = .error e := by
  cases hb : buildRating j with
  | error e => exact ⟨e, rfl⟩
  | ok r => rw [buildRating_ok_required j r hb] at h; cases h

/-- Unfolding of `evaluate_with_llm` after a successful gateway call. -/
theorem evaluate_gateway_ok (env : Env) (sub : WritingSubmission) (rc : String)
    (calls : List NetworkCall)
    (hg : gateway env (pyLower sub.model) (build_prompt sub (count_words sub.response))
      = (.ok rc, calls)) :
    evaluate_with_llm env sub =
      match extract_rating rc with
      | .ok rating => (some rating, ⟨some (preview_of rc), none⟩, calls)
      | .error e => (none, ⟨some (preview_of rc), some e⟩, calls) := by
  unfold evaluate_with_llm
  dsimp only
  rw [hg]

/-- Unfolding of `evaluate_with_llm` after a gateway failure. -/
theorem evaluate_gateway_error (env : Env) (sub : WritingSubmission) (e : String)
    (calls : List NetworkCall)
    (hg : gateway env (pyLower sub.model) (build_prompt sub (count_words sub.response))
      = (.error e, calls)) :
    evaluate_with_llm env sub = (none, ⟨none, some e⟩, calls) := by
  unfold evaluate_with_llm
  dsimp only
  rw [hg]


/-! ## Concrete inputs used by counterexamples and witnesses -/

deriving instance DecidableEq for Except

set_option maxRecDepth 8000

/-- An environment with a configured API key whose chat-completion
call returns the given reply text. -/
def envWith (reply : String) : Env :=
  ⟨some "sk-test", fun _ => .ok reply⟩

/-- An environment with a configured API key whose chat-completion
call raises an exception with the given description. -/
def envFail (msg : String) : Env :=
  ⟨some "sk-test", fun _ => .error msg⟩

/-- A sample submission selecting the hosted backend. -/
def sub0 : WritingSubmission :=
  ⟨.task1, "Describe the chart.", "The chart shows a rising trend.", "chatGPT"⟩

/-- A sample submission with an unrecognised model identifier. -/
def subBad : WritingSubmission :=
  ⟨.task2, "Discuss both views.", "Some people think so.", "claude-3"⟩

/-- A sample submission selecting the local backend. -/
def subLlama : WritingSubmission :=
  ⟨.task2, "Discuss both views.", "Some people think so.", "Llama3.2"⟩

/-- The members of a complete, well-formed rubric reply object. -/
def exC2_inner : String :=
  "\"task_achievement\": \x7b\"score\": 7.0, \"feedback\": \"good\"\x7d, \"coherence_cohesion\": \x7b\"score\": 6.5, \"feedback\": \"ok\"\x7d, \"lexical_resource\": \x7b\"score\": 7, \"feedback\": \"fine\"\x7d, \"grammatical_range\": \x7b\"score\": 6.0, \"feedback\": \"varied\"\x7d, \"overall_score\": 6.5, \"overall_feedback\": \"solid\""

/-- The complete rubric reply object. -/
def exC2_obj : String := "\x7b" ++ exC2_inner ++ "\x7d"

/-- The rating encoded by `exC2_obj`. -/
def exC2_rating : DetailedRating :=
  ⟨⟨mkRat 7 1, "good"⟩, ⟨mkRat 13 2, "ok"⟩, ⟨mkRat 7 1, "fine"⟩, ⟨mkRat 6 1, "varied"⟩,
    mkRat 13 2, "solid"⟩

/-- A reply whose embedded object parses but omits
`grammatical_range` (all other required fields present). -/
def exC6_reply : String :=
  "Rating: \x7b\"task_achievement\": \x7b\"score\": 7.0, \"feedback\": \"good\"\x7d, \"coherence_cohesion\": \x7b\"score\": 6.5, \"feedback\": \"ok\"\x7d, \"lexical_resource\": \x7b\"score\": 7, \"feedback\": \"fine\"\x7d, \"overall_score\": 6.5, \"overall_feedback\": \"solid\"\x7d"

/-- A small balanced JSON object. -/
def exC10_obj : String := "\x7b\"a\": 1\x7d"

/-- A reply holding one valid JSON object followed by a later right
brace in trailing text. -/
def exC10_reply : String := exC10_obj ++ " and later \x7d"

/-- A short string with a left brace at index 2 and right braces at
indices 5 and 6. -/
def exC10_s : String := "ab\x7bcd\x7d\x7def"

/-! ## The claims -/

/-- C1: for every `WritingSubmission`, the inbound rate operation
returns exactly one of a fully populated `DetailedRating` (the
`DetailedRating` type carries all four criteria and the numeric
overall score by construction, as does the pydantic model) or a
failure response with status 500; never both, and never a
partially-filled rating. -/
theorem claim_C1 (env : Env) (sub : WritingSubmission) (dm : Bool) :
    (∃ resp, rate_writing env sub dm = .ok resp ∧
        (evaluate_with_llm env sub).1 = some resp.rating ∧
        (∀ err, rate_writing env sub dm ≠ .error err)) ∨
    ((∃ err, rate_writing env sub dm = .error err ∧ err.status_code = 500) ∧
        (evaluate_with_llm env sub).1 = none ∧
        (∀ resp, rate_writing env sub dm ≠ .ok resp)) := by
  rcases hev : evaluate_with_llm env sub with ⟨orat, dbg, calls⟩
  cases orat with
  | some rating =>
    left
    have hrw : rate_writing env sub dm = .ok ⟨rating, if dm then some dbg else none⟩ := by
      unfold rate_writing
      rw [hev]
    refine ⟨_, hrw, ?_, ?_⟩
    · rfl
    · intro err he
      rw [hrw] at he
      exact Except.noConfusion he
  | none =>
    right
    have hrw : rate_writing env sub dm
        = .error ⟨500, HTTPError.pyStr ⟨500, "LLM evaluation failed."⟩⟩ := by
      unfold rate_writing
      rw [hev]
    refine ⟨⟨_, hrw, rfl⟩, rfl, ?_⟩
    intro resp hr
    rw [hrw] at hr
    exact Except.noConfusion hr

/-- C1 witness at a concrete environment and submission. -/
theorem claim_C1_witness :
    (∃ resp, rate_writing (envWith exC2_obj) sub0 false = .ok resp ∧
        (evaluate_with_llm (envWith exC2_obj) sub0).1 = some resp.rating ∧
        (∀ err, rate_writing (envWith exC2_obj) sub0 false ≠ .error err)) ∨
    ((∃ err, rate_writing (envWith exC2_obj) sub0 false = .error err ∧ err.status_code = 500) ∧
        (evaluate_with_llm (envWith exC2_obj) sub0).1 = none ∧
        (∀ resp, rate_writing (envWith exC2_obj) sub0 false ≠ .ok resp)) :=
  claim_C1 (envWith exC2_obj) sub0 false

/-- C2 counterexample: a reply made of extraneous prose, then a single
valid JSON object carrying all required rubric fields (first
conjunct), then extraneous prose containing a right brace, on which
extraction does not recover the object: the greedy scan spans to the
final brace of the trailing prose and parsing fails. -/
theorem claim_C2_counterexample :
    loadAndBuild exC2_obj = .ok exC2_rating ∧
    extract_rating ("Here is my rating: " ++ exC2_obj ++ " I hope this helps :\x7d")
      = .error json_decode_msg := by
  constructor
  · decide
  · decide

/-- C2 (amended): for every reply consisting of extraneous prose with
no left brace, then a single valid JSON object with the required
rubric fields, then extraneous prose with no right brace, the
extractor recovers exactly the embedded object and produces the
matching `DetailedRating`. -/
theorem claim_C2 (pre mid post : List Char) (r : DetailedRating)
    (hpre : obrace ∉ pre) (hpost : cbrace ∉ post)
    (hobj : loadAndBuild (String.mk (obrace :: (mid ++ [cbrace]))) = .ok r) :
    extract_json (String.mk (pre ++ (obrace :: (mid ++ [cbrace])) ++ post))
      = some (String.mk (obrace :: (mid ++ [cbrace]))) ∧
    extract_rating (String.mk (pre ++ (obrace :: (mid ++ [cbrace])) ++ post)) = .ok r := by
  have hej : extract_json (String.mk (pre ++ (obrace :: (mid ++ [cbrace])) ++ post))
      = some (String.mk (obrace :: (mid ++ [cbrace]))) := by
    unfold extract_json
    rw [show (String.mk (pre ++ (obrace :: (mid ++ [cbrace])) ++ post)).data
        = pre ++ (obrace :: (mid ++ [cbrace])) ++ post from rfl]
    rw [braceSearch_pre_obj_post pre mid post hpre hpost]
    rfl
  refine ⟨hej, ?_⟩
  unfold extract_rating
  rw [hej]
  exact hobj

/-- C2 witness: prose, a full rubric object, and brace-free trailing
prose; the object is recovered and mapped. -/
theorem claim_C2_witness :
    extract_json (String.mk (("Sure! The evaluation follows. ").data
        ++ (obrace :: (exC2_inner.data ++ [cbrace])) ++ (" Best regards.").data))
      = some (String.mk (obrace :: (exC2_inner.data ++ [cbrace]))) ∧
    extract_rating (String.mk (("Sure! The evaluation follows. ").data
        ++ (obrace :: (exC2_inner.data ++ [cbrace])) ++ (" Best regards.").data))
      = .ok exC2_rating :=
  claim_C2 ("Sure! The evaluation follows. ").data exC2_inner.data (" Best regards.").data
    exC2_rating (by decide) (by decide) (by decide)

/-- C3 counterexample: the word count of the literal
"This is five words." is not 5 — the text has four
whitespace-separated tokens ("words." is one token). -/
theorem claim_C3_counterexample : count_words "This is five words." ≠ 5 := by
  decide

/-- C3 (amended): the Prompt Builder's word count of the literal text
"This is five words." equals 4, the number of tokens after splitting
the text on whitespace. -/
theorem claim_C3 : count_words "This is five words." = 4 := by
  decide

/-- C4: for every model identifier other than "chatgpt" and
"llama3.2" after lowercasing, the gateway reports the
invalid-model-selection failure and attempts no upstream call (empty
call list), and the orchestrator returns no rating. -/
theorem claim_C4 (env : Env) (sub : WritingSubmission)
    (h1 : pyLower sub.model ≠ "chatgpt") (h2 : pyLower sub.model ≠ "llama3.2") :
    (∀ prompt, gateway env (pyLower sub.model) prompt = (.error invalid_model_msg, [])) ∧
    evaluate_with_llm env sub = (none, ⟨none, some invalid_model_msg⟩, []) := by
  have hg : ∀ prompt, gateway env (pyLower sub.model) prompt = (.error invalid_model_msg, []) := by
    intro prompt
    unfold gateway
    rw [if_neg h1, if_neg h2]
  exact ⟨hg, evaluate_gateway_error env sub invalid_model_msg [] (hg _)⟩

/-- C4 witness at the identifier "claude-3". -/
theorem claim_C4_witness :
    (∀ prompt, gateway (envWith "x") (pyLower subBad.model) prompt
      = (.error invalid_model_msg, [])) ∧
    evaluate_with_llm (envWith "x") subBad = (none, ⟨none, some invalid_model_msg⟩, []) :=
  claim_C4 (envWith "x") subBad (by decide) (by decide)

/-- C5: for every reply text with no left brace, extraction fails with
the no-JSON message, and — whenever the gateway produced such a reply
— the orchestrator returns no rating and the endpoint reports an
evaluation failure, never a default or empty rating. -/
theorem claim_C5 (rc : String) (h : obrace ∉ rc.data) :
    extract_rating rc = .error no_json_msg ∧
    (∀ r, extract_rating rc ≠ .ok r) ∧
    (∀ env sub calls dm,
      gateway env (pyLower sub.model) (build_prompt sub (count_words sub.response))
        = (.ok rc, calls) →
      evaluate_with_llm env sub = (none, ⟨some (preview_of rc), some no_json_msg⟩, calls) ∧
      rate_writing env sub dm
        = .error ⟨500, HTTPError.pyStr ⟨500, "LLM evaluation failed."⟩⟩) := by
  have hex : extract_rating rc = .error no_json_msg := by
    unfold extract_rating extract_json
    rw [braceSearch_of_not_mem rc.data h]
    rfl
  refine ⟨hex, ?_, ?_⟩
  · intro r hr
    rw [hex] at hr
    exact Except.noConfusion hr
  · intro env sub calls dm hg
    have he := evaluate_gateway_ok env sub rc calls hg
    rw [hex] at he
    refine ⟨he, ?_⟩
    unfold rate_writing
    rw [he]

/-- C5 witness at a brace-free reply. -/
theorem claim_C5_witness :
    extract_rating "I cannot rate this response." = .error no_json_msg ∧
    (∀ r, extract_rating "I cannot rate this response." ≠ .ok r) ∧
    (∀ env sub calls dm,
      gateway env (pyLower sub.model) (build_prompt sub (count_words sub.response))
        = (.ok "I cannot rate this response.", calls) →
      evaluate_with_llm env sub
        = (none, ⟨some (preview_of "I cannot rate this response."), some no_json_msg⟩, calls) ∧
      rate_writing env sub dm
        = .error ⟨500, HTTPError.pyStr ⟨500, "LLM evaluation failed."⟩⟩) :=
  claim_C5 "I cannot rate this response." (by decide)

/-- C6: for every reply whose extracted JSON object parses but lacks a
required key or sub-key (in particular `grammatical_range`), the
extractor fails — the missing-key failure surfaces as the `KeyError`
message when reached first, as the closed conjunct shows on a reply
omitting exactly `grammatical_range` — no partial rating is returned,
no defaults are filled, and the orchestrator returns no rating. -/
theorem claim_C6 (rc : String) (h : optRequiredMissing (parsedJson rc) = true) :
    (∃ e, extract_rating rc = .error e) ∧
    (∀ r, extract_rating rc ≠ .ok r) ∧
    (∀ env sub calls,
      gateway env (pyLower sub.model) (build_prompt sub (count_words sub.response))
        = (.ok rc, calls) →
      (evaluate_with_llm env sub).1 = none) ∧
    extract_rating exC6_reply = .error (key_error_msg "grammatical_range") := by
  cases hp : parsedJson rc with
  | none => rw [hp] at h; cases h
  | some j =>
    rw [hp] at h
    have hjs : ∃ js, extract_json rc = some js ∧ pyJsonLoads js = some j := by
      unfold parsedJson at hp
      cases hejs : extract_json rc with
      | none => rw [hejs] at hp; exact Option.noConfusion hp
      | some js =>
        rw [hejs] at hp
        exact ⟨js, rfl, hp⟩
    obtain ⟨js, hejs, hpj⟩ := hjs
    obtain ⟨e, hbe⟩ := buildRating_error_of_missing j h
    have hex : extract_rating rc = .error e := by
      unfold extract_rating
      rw [hejs]
      show loadAndBuild js = Except.error e
      unfold loadAndBuild
      rw [hpj]
      exact hbe
    refine ⟨⟨e, hex⟩, ?_, ?_, by decide⟩
    · intro r hr
      rw [hex] at hr
      exact Except.noConfusion hr
    · intro env sub calls hg
      rw [evaluate_gateway_ok env sub rc calls hg, hex]

/-- C6 witness at a reply omitting exactly `grammatical_range`. -/
theorem claim_C6_witness :
    (∃ e, extract_rating exC6_reply = .error e) ∧
    (∀ r, extract_rating exC6_reply ≠ .ok r) ∧
    (∀ env sub calls,
      gateway env (pyLower sub.model) (build_prompt sub (count_words sub.response))
        = (.ok exC6_reply, calls) →
      (evaluate_with_llm env sub).1 = none) ∧
    extract_rating exC6_reply = .error (key_error_msg "grammatical_range") :=
  claim_C6 exC6_reply (by decide)


/-- C7: when `debug_mode` is unset or false, a success response
carries no diagnostic trace; when it is true, the attached trace's
preview of the raw reply is the reply unchanged if its length is at
most 200 characters, and otherwise the first 200 characters followed
by the truncation marker "...". -/
theorem claim_C7 (env : Env) (sub : WritingSubmission) :
    (∀ resp, rate_writing env sub false = .ok resp → resp.debug_info = none) ∧
    (∀ rc calls resp,
      gateway env (pyLower sub.model) (build_prompt sub (count_words sub.response))
        = (.ok rc, calls) →
      rate_writing env sub true = .ok resp →
      ∃ dbg, resp.debug_info = some dbg ∧
        (rc.length ≤ 200 → dbg.response_preview = some rc) ∧
        (200 < rc.length → dbg.response_preview = some (rc.take 200 ++ "..."))) := by
  constructor
  · intro resp h
    rcases hev : evaluate_with_llm env sub with ⟨orat, dbg, calls⟩
    cases orat with
    | none =>
      unfold rate_writing at h
      rw [hev] at h
      exact Except.noConfusion h
    | some rating =>
      unfold rate_writing at h
      rw [hev] at h
      simp only [Except.ok.injEq] at h
      subst h
      rfl
  · intro rc calls resp hg hr
    have he := evaluate_gateway_ok env sub rc calls hg
    cases hex : extract_rating rc with
    | error e =>
      rw [hex] at he
      unfold rate_writing at hr
      rw [he] at hr
      exact Except.noConfusion hr
    | ok rating =>
      rw [hex] at he
      unfold rate_writing at hr
      rw [he] at hr
      simp only [Except.ok.injEq] at hr
      subst hr
      refine ⟨⟨some (preview_of rc), none⟩, rfl, ?_, ?_⟩
      · intro hle
        unfold preview_of
        rw [if_neg (by omega)]
      · intro hgt
        unfold preview_of
        rw [if_pos (by omega)]

/-- C7 witness at a concrete environment and submission. -/
theorem claim_C7_witness :
    (∀ resp, rate_writing (envWith exC2_obj) sub0 false = .ok resp → resp.debug_info = none) ∧
    (∀ rc calls resp,
      gateway (envWith exC2_obj) (pyLower sub0.model)
          (build_prompt sub0 (count_words sub0.response)) = (.ok rc, calls) →
      rate_writing (envWith exC2_obj) sub0 true = .ok resp →
      ∃ dbg, resp.debug_info = some dbg ∧
        (rc.length ≤ 200 → dbg.response_preview = some rc) ∧
        (200 < rc.length → dbg.response_preview = some (rc.take 200 ++ "..."))) :=
  claim_C7 (envWith exC2_obj) sub0

/-- C8: for every submission whose evaluation fails, the returned
failure value carries the originating component's error description
in its `error_message` entry — the gateway's description on gateway
failure, the extractor's description on extraction failure. -/
theorem claim_C8 (env : Env) (sub : WritingSubmission) :
    (∀ e calls,
      gateway env (pyLower sub.model) (build_prompt sub (count_words sub.response))
        = (.error e, calls) →
      ∃ dbg, evaluate_with_llm env sub = (none, dbg, calls) ∧ dbg.error_message = some e) ∧
    (∀ rc e calls,
      gateway env (pyLower sub.model) (build_prompt sub (count_words sub.response))
        = (.ok rc, calls) →
      extract_rating rc = .error e →
      ∃ dbg, evaluate_with_llm env sub = (none, dbg, calls) ∧ dbg.error_message = some e) := by
  constructor
  · intro e calls hg
    exact ⟨⟨none, some e⟩, evaluate_gateway_error env sub e calls hg, rfl⟩
  · intro rc e calls hg hex
    refine ⟨⟨some (preview_of rc), some e⟩, ?_, rfl⟩
    rw [evaluate_gateway_ok env sub rc calls hg, hex]

/-- C8 witness: a gateway failure with description "boom" surfaces as
the failure value's error message. -/
theorem claim_C8_witness :
    ∃ dbg, evaluate_with_llm (envFail "boom") sub0
        = (none, dbg,
          [.openaiChat "You are an IELTS examiner."
            (build_prompt sub0 (count_words sub0.response))]) ∧
      dbg.error_message = some "boom" :=
  (claim_C8 (envFail "boom") sub0).1 "boom" _ rfl

/-- C9: a submission selecting "llama3.2" never reaches the local
model-serving endpoint — the module-level `import ollama` is
commented out (src/app.py line 11), so line 138 raises `NameError`
before any request is sent, and the evaluation fails with that
error.  (This contradicts the code's own docstring and line-137
comment; the claim describes the evident intent.) -/
theorem claim_C9 (env : Env) (sub : WritingSubmission) (h : pyLower sub.model = "llama3.2") :
    (∀ prompt, gateway env (pyLower sub.model) prompt = (.error ollama_name_error_msg, [])) ∧
    evaluate_with_llm env sub = (none, ⟨none, some ollama_name_error_msg⟩, []) := by
  have hg : ∀ prompt, gateway env (pyLower sub.model) prompt
      = (.error ollama_name_error_msg, []) := by
    intro prompt
    unfold gateway
    rw [h, if_neg (by decide), if_pos rfl]
  exact ⟨hg, evaluate_gateway_error env sub ollama_name_error_msg [] (hg _)⟩

/-- C9 witness at the identifier "Llama3.2". -/
theorem claim_C9_witness :
    (∀ prompt, gateway (envWith "x") (pyLower subLlama.model) prompt
      = (.error ollama_name_error_msg, [])) ∧
    evaluate_with_llm (envWith "x") subLlama
      = (none, ⟨none, some ollama_name_error_msg⟩, []) :=
  claim_C9 (envWith "x") subLlama (by decide)

/-- C10: for every raw reply containing a left brace with some right
brace after it, the substring handed to the JSON parser spans from
the first left brace of the reply to the last right brace of the
entire reply; hence (closed conjunct) a reply holding one valid JSON
object followed by a later right brace in trailing text is extracted
as the whole greedy span, and parsing fails rather than yielding the
first object. -/
theorem claim_C10 (s : String) (i j : ℕ) (hij : i < j)
    (hi : s.data.get? i = some obrace) (hj : s.data.get? j = some cbrace) :
    (∃ f l, f < l ∧
      s.data.get? f = some obrace ∧ (∀ k, k < f → s.data.get? k ≠ some obrace) ∧
      s.data.get? l = some cbrace ∧ (∀ k, l < k → s.data.get? k ≠ some cbrace) ∧
      extract_json s = some (String.mk ((s.data.drop f).take (l + 1 - f)))) ∧
    ((pyJsonLoads exC10_obj).isSome = true ∧
      extract_json exC10_reply = some exC10_reply ∧
      extract_rating exC10_reply = .error json_decode_msg) := by
  constructor
  · obtain ⟨f, l, h1, h2, h3, h4, h5, h6⟩ := braceSearch_spec s.data i j hij hi hj
    refine ⟨f, l, h1, h2, h3, h4, h5, ?_⟩
    unfold extract_json
    rw [h6]
    rfl
  · exact ⟨by decide, by decide, by decide⟩

/-- C10 witness on a string with a left brace at index 2 and its last
right brace at index 6. -/
theorem claim_C10_witness :
    (∃ f l, f < l ∧
      exC10_s.data.get? f = some obrace ∧ (∀ k, k < f → exC10_s.data.get? k ≠ some obrace) ∧
      exC10_s.data.get? l = some cbrace ∧ (∀ k, l < k → exC10_s.data.get? k ≠ some cbrace) ∧
      extract_json exC10_s = some (String.mk ((exC10_s.data.drop f).take (l + 1 - f)))) ∧
    ((pyJsonLoads exC10_obj).isSome = true ∧
      extract_json exC10_reply = some exC10_reply ∧
      extract_rating exC10_reply = .error json_decode_msg) :=
  claim_C10 exC10_s 2 5 (by decide) (by decide) (by decide)

end IELTS
